import Mathlib

/-!
# Chainbills: verification of the payments / withdrawal core

Shallow embedding of the Chainbills payment ledger, translated from the
repository sources:

* `src/cosmwasm/src/interfaces/payments.rs` — the CosmWasm `pay` execute
  handler and the `user_payment_id` / `payable_payment_id` queries;
* `src/solana/programs/chainbills/src/handlers/withdraw.rs` — the Solana
  `withdraw_handler`, `withdraw_received_handler`, `check_withdraw_inputs`
  and `update_state_for_withdrawal`;
* `src/solana/programs/chainbills/src/handlers/create_payable.rs` and
  `src/solana/programs/chainbills/src/instructions/payable/initialize_payable.rs`
  — the two generations of payable creation;
* `src/solana/programs/chainbills/src/context/withdraw.rs` — the Anchor
  account constraints (host check) that run before `withdraw_handler`.

Machine integers are modelled as `Nat` together with explicit bounds:
`u64` amounts/counters overflow at `2 ^ 64` and `Uint128` amounts at
`2 ^ 128`.  Rust `checked_add(..).unwrap()` is modelled as an `Option`
returning `none` exactly when the bound is exceeded; an `unwrap` panic
(which aborts the whole transaction on both chains, leaving state
untouched) surfaces as the `panicked` error of the embedding.  Fallible
entry points return `Except`; returning an error models the transactional
rollback of CosmWasm / Solana: no state change is persisted.

Addresses, 32-byte ids and token mints are modelled as `Nat` (their only
role in the verified logic is equality comparison); a caller address of
all zero bytes is the number `0`.
-/

/-- `2 ^ 64`, the exclusive upper bound of Rust `u64` values. -/
def U64 : Nat := 2 ^ 64

/-- `2 ^ 128`, the exclusive upper bound of CosmWasm `Uint128` values. -/
def U128 : Nat := 2 ^ 128

/-- Rust `a.checked_add(b)` at bit-width bound `bound`. -/
def checked_add (bound a b : Nat) : Option Nat :=
  if a + b < bound then some (a + b) else none

/-- Rust `a.checked_sub(b)` (on `Nat`, failure is exactly underflow). -/
def checked_sub (a b : Nat) : Option Nat :=
  if b ≤ a then some (a - b) else none

/-- Rust `a.checked_mul(b)` at bit-width bound `bound`. -/
def checked_mul (bound a b : Nat) : Option Nat :=
  if a * b < bound then some (a * b) else none

/-- Modelled from the spec: the per-scope counter step `next(scope, id)`
(§4.1, "strictly increasing, starting at 1, overflow is a fatal error").
The concrete `next_payment` / `next_withdrawal` / `next_payable` methods
live in the CosmWasm and Solana `state` modules, which are not part of the
provided sources; all their call sites increment the stored count by one
with checked `u64` arithmetic. -/
def u64_next (count : Nat) : Option Nat :=
  checked_add U64 count 1

namespace Cw

/-- `state::TokenAndAmount` (CosmWasm): a token denomination together with
an amount.  Used both for allowed-token configuration and for balances. -/
structure TokenAndAmount where
  token : Nat
  amount : Nat
deriving DecidableEq, Repr

/-- The payable fields read and written by the `pay` handler
(`state::Payable`, CosmWasm). -/
structure Payable where
  host : Nat
  payments_count : Nat
  withdrawals_count : Nat
  is_closed : Bool
  allowed_tokens_and_amounts : List TokenAndAmount
  balances : List TokenAndAmount
deriving DecidableEq, Repr

/-- The chain-level stats touched by `pay` (`state::ChainStats`). -/
structure ChainStats where
  chain_id : Nat
  payments_count : Nat
deriving DecidableEq, Repr

/-- The per-wallet record touched by `pay` (`state::User`). -/
structure User where
  payments_count : Nat
deriving DecidableEq, Repr

/-- Modelled from the spec: `User::initialize(0)` (the `state` module is
not in the provided sources).  A user is "created lazily on first payment
if absent" (§3) with all its counters at zero. -/
def User.fresh : User := { payments_count := 0 }

/-- `state::UserPayment`: the payer-indexed view of a payment. -/
structure UserPayment where
  payable_id : Nat
  payer : Nat
  payable_chain_id : Nat
  chain_count : Nat
  payer_count : Nat
  payable_count : Nat
  timestamp : Nat
  details : TokenAndAmount
deriving DecidableEq, Repr

/-- `state::PayablePayment`: the payable-indexed view of a payment. -/
structure PayablePayment where
  payable_id : Nat
  payer : Nat
  payer_chain_id : Nat
  local_chain_count : Nat
  payable_count : Nat
  payer_count : Nat
  timestamp : Nat
  details : TokenAndAmount
deriving DecidableEq, Repr

/-- The `ChainbillsError` variants reachable from the embedded entry
points, plus `panicked` for a Rust `unwrap` failure (which aborts the
transaction before anything is persisted). -/
inductive Error where
  | InvalidPayableId
  | PayableIsClosed
  | ZeroAmountSpecified
  | InvalidToken
  | MatchingTokenAndAmountNotFound
  | InvalidNativeTokenPayment
  | InvalidUserPaymentCount
  | InvalidPayablePaymentCount
  | StdNotFound
  | panicked
deriving DecidableEq, Repr

/-- The storage slots read and written by `pay` for a fixed payable id and
a fixed sender, each modelled as the value held under its key (`none` when
the key is absent, mirroring `has` / `may_load`). -/
structure State where
  payable : Option Payable
  chain_stats : ChainStats
  user : Option User
  supported_tokens : List Nat
  user_payment_ids : Option (List Nat)
  payable_payment_ids : Option (List Nat)
  payable_chain_count : Option Nat
  user_payments : List (Nat × UserPayment)
  payable_payments : List (Nat × PayablePayment)
deriving DecidableEq, Repr

/-- The transaction environment of a `pay` call: the sender wallet, the
contract's own address (paying it means a native-token payment), the
native funds attached to the call (`must_pay`), and the block time. -/
structure PayEnv where
  sender : Nat
  contract_addr : Nat
  paid_native : Nat
  now : Nat
deriving DecidableEq, Repr

/-- The allowed-tokens loop of `pay` (payments.rs lines 171–181): walk the
list with a peekable iterator, stop successfully at the first entry whose
token and amount both match, and fail with `MatchingTokenAndAmountNotFound`
only when the last entry has been examined without a match.  A `while let`
loop over an empty list never runs, hence succeeds. -/
def allowed_check (ataa : List TokenAndAmount) (token amount : Nat) :
    Except Error Unit :=
  match ataa with
  | [] => .ok ()
  | [taa] =>
    if taa.token = token ∧ taa.amount = amount then .ok ()
    else .error .MatchingTokenAndAmountNotFound
  | taa :: rest =>
    if taa.token = token ∧ taa.amount = amount then .ok ()
    else allowed_check rest token amount

/-- The balance-update section of `pay` (payments.rs lines 227–244): add
`amount` to the first balance entry whose token matches, with
`checked_add(..).unwrap()` (`none` = panic on `Uint128` overflow); if no
entry matches, push a new `TokenAndAmount` at the end of the list. -/
def add_to_balances (bals : List TokenAndAmount) (token amount : Nat) :
    Option (List TokenAndAmount) :=
  match bals with
  | [] => some [{ token := token, amount := amount }]
  | b :: rest =>
    if b.token = token then
      (checked_add U128 b.amount amount).map
        (fun a => { token := b.token, amount := a } :: rest)
    else
      (add_to_balances rest token amount).map (fun l => b :: l)

/-- Modelled from the spec: `create_id` (not in the provided sources).
Identifiers "are derived deterministically from (origin-chain id,
origin-scoped sequence counter, entity kind)" (§3); the call site passes
the chain id implicitly through storage, the sender wallet and the
sender-scoped count.  Claims never depend on the id value, only on list
lengths, so any deterministic function is faithful. -/
def create_id (chain_id wallet count : Nat) : Nat :=
  (chain_id * U64 + count) * U64 + wallet

/-- The `/* STATE CHANGES */` section of `pay` (payments.rs lines
207–332), entered after every check has passed.  Every counter bump is a
`checked_add(1).unwrap()` (the concrete `next_payment` helpers are
modelled by `u64_next`, see its doc). -/
def pay_commit (env : PayEnv) (st : State) (payable_id : Nat)
    (payable : Payable) (token amount : Nat) : Except Error State :=
  match u64_next st.chain_stats.payments_count with
  | none => .error .panicked
  | some chain_pc =>
  let chain_stats := { st.chain_stats with payments_count := chain_pc }
  -- initialize_user_if_need_be, then bump the payer's payments_count
  let user0 := st.user.getD User.fresh
  match u64_next user0.payments_count with
  | none => .error .panicked
  | some payer_pc =>
  let user : User := { payments_count := payer_pc }
  match u64_next payable.payments_count with
  | none => .error .panicked
  | some pybl_pc =>
  match add_to_balances payable.balances token amount with
  | none => .error .panicked
  | some balances =>
  let payable :=
    { payable with payments_count := pybl_pc, balances := balances }
  match u64_next (st.payable_chain_count.getD 0) with
  | none => .error .panicked
  | some local_chain_count =>
  let payment_id := create_id chain_stats.chain_id env.sender payer_pc
  let user_payment : UserPayment :=
    { payable_id := payable_id
      payer := env.sender
      payable_chain_id := chain_stats.chain_id
      chain_count := chain_pc
      payer_count := payer_pc
      payable_count := pybl_pc
      timestamp := env.now
      details := { token := token, amount := amount } }
  let payable_payment : PayablePayment :=
    { payable_id := payable_id
      payer := env.sender
      payer_chain_id := chain_stats.chain_id
      local_chain_count := local_chain_count
      payable_count := pybl_pc
      payer_count := payer_pc
      timestamp := env.now
      details := { token := token, amount := amount } }
  .ok { st with
        payable := some payable
        chain_stats := chain_stats
        user := some user
        payable_chain_count := some local_chain_count
        user_payment_ids :=
          some (st.user_payment_ids.getD [] ++ [payment_id])
        payable_payment_ids :=
          some (st.payable_payment_ids.getD [] ++ [payment_id])
        user_payments := st.user_payments ++ [(payment_id, user_payment)]
        payable_payments :=
          st.payable_payments ++ [(payment_id, payable_payment)] }

/-- The `pay` execute handler (payments.rs lines 134–365): the `/* CHECKS */`
section in source order (payable existence, closed flag, zero amount,
token support via `max_fees_per_token`, allowed token/amount matching),
then the `/* TRANSFER */` native-payment verification, then the state
changes.  An error return models the CosmWasm transaction rollback: no
storage write survives. -/
def pay (env : PayEnv) (st : State) (payable_id token amount : Nat) :
    Except Error State :=
  match st.payable with
  | none => .error .InvalidPayableId
  | some payable =>
  if payable.is_closed then .error .PayableIsClosed
  else if amount = 0 then .error .ZeroAmountSpecified
  else if token ∉ st.supported_tokens then .error .InvalidToken
  else
    match allowed_check payable.allowed_tokens_and_amounts token amount with
    | .error e => .error e
    | .ok () =>
      if token = env.contract_addr ∧ env.paid_native ≠ amount then
        .error .InvalidNativeTokenPayment
      else pay_commit env st payable_id payable token amount

/-- Folding `pay` over a list of `(token, amount)` requests, all against
the same payable, in the `Except` monad (any failure aborts the rest). -/
def pay_seq (env : PayEnv) (st : State) (payable_id : Nat) :
    List (Nat × Nat) → Except Error State
  | [] => .ok st
  | m :: ms =>
    match pay env st payable_id m.1 m.2 with
    | .error e => .error e
    | .ok st' => pay_seq env st' payable_id ms

/-- First balance entry for a token, if any (`payable.balances` holds at
most one entry per token in every reachable state, and both the payment
and the withdrawal loops only ever act on the first match). -/
def lookup_balance (bals : List TokenAndAmount) (token : Nat) : Option Nat :=
  match bals with
  | [] => none
  | b :: rest => if b.token = token then some b.amount
                 else lookup_balance rest token

/-- The load-and-index tail shared verbatim by both id queries
(payments.rs lines 71–76 and 112–117): `load` the id list (a `StdError`
when the key is absent, `StdNotFound` here) and index it at
`(count - 1) as usize`, which is `u64` wrapping subtraction — `count = 0`
yields index `2 ^ 64 - 1` — and an out-of-bounds index is a panic. -/
def load_and_index (ids : Option (List Nat)) (count : Nat) :
    Except Error Nat :=
  match ids with
  | none => .error .StdNotFound
  | some l =>
    match l.get? ((count + (U64 - 1)) % U64) with
    | none => .error .panicked
    | some id => .ok id

/-- The `user_payment_id` query (payments.rs lines 54–77): absent users
default to `User::initialize(0)`; a count above the user's
`payments_count` is `InvalidUserPaymentCount`; then the id list is
loaded and indexed. -/
def user_payment_id (user : Option User) (ids : Option (List Nat))
    (count : Nat) : Except Error Nat :=
  let u := user.getD User.fresh
  if count > u.payments_count then .error .InvalidUserPaymentCount
  else load_and_index ids count

/-- The `payable_payment_id` query (payments.rs lines 93–118): payable
existence first, then the count bound against `payable.payments_count`,
then the same `(count - 1) as usize` indexing as `user_payment_id`. -/
def payable_payment_id (payable : Option Payable)
    (ids : Option (List Nat)) (count : Nat) : Except Error Nat :=
  match payable with
  | none => .error .InvalidPayableId
  | some p =>
    if count > p.payments_count then .error .InvalidPayablePaymentCount
    else load_and_index ids count

end Cw

namespace Sol

/-- `state::TokenAndAmount` (Solana): token mint (32 bytes) and `u64`
amount. -/
structure TokenAndAmount where
  token : Nat
  amount : Nat
deriving DecidableEq, Repr

/-- The payable fields used by the withdrawal and creation handlers
(the Solana `state::Payable`; field list reconstructed from the
assignments in `create_payable_handler` and the reads in `withdraw.rs`).
`key` is the account's address (`payable.key()`). -/
structure Payable where
  key : Nat
  host : Nat
  chain_count : Nat
  host_count : Nat
  allowed_tokens_and_amounts : List TokenAndAmount
  balances : List TokenAndAmount
  created_at : Nat
  payments_count : Nat
  withdrawals_count : Nat
  activities_count : Nat
  is_closed : Bool
deriving DecidableEq, Repr

/-- The `state::User` fields used by the handlers; `key` is the account
address, `owner_wallet` / `chain_id` the cross-chain identity fields read
by `withdraw_received_handler`. -/
structure User where
  key : Nat
  owner_wallet : Nat
  chain_id : Nat
  payables_count : Nat
  withdrawals_count : Nat
  activities_count : Nat
deriving DecidableEq, Repr

/-- `state::GlobalStats` (src/solana/.../state/global_stats.rs). -/
structure GlobalStats where
  users_count : Nat
  payables_count : Nat
  payments_count : Nat
  withdrawals_count : Nat
deriving DecidableEq, Repr

/-- `state::Withdrawal`: the immutable record initialized by
`update_state_for_withdrawal`. -/
structure Withdrawal where
  global_count : Nat
  payable : Nat
  payable_count : Nat
  host : Nat
  host_count : Nat
  timestamp : Nat
  details : TokenAndAmount
deriving DecidableEq, Repr

/-- The `ChainbillsError` variants reachable from the embedded Solana
handlers, plus `panicked` for `unwrap` failures (a panic aborts the whole
Solana transaction, so no state change is persisted). -/
inductive Error where
  | NotYourPayable
  | ZeroAmountSpecified
  | InsufficientWithdrawAmount
  | NoBalanceForWithdrawalToken
  | InvalidCallerAddress
  | InvalidActionId
  | UnauthorizedCallerAddress
  | WrongWithdrawalsHostCountProvided
  | NotMatchingPayableId
  | NotMatchingTransactionToken
  | NotMatchingTransactionAmount
  | InvalidRemainingAccountsLength
  | InvalidTokenDetailsAccount
  | UnsupportedToken
  | EmptyDescriptionProvided
  | MaxPayableDescriptionReached
  | MaxPayableTokensCapacityReached
  | ImproperPayablesConfiguration
  | panicked
deriving DecidableEq, Repr

/-- `check_withdraw_inputs` (withdraw.rs lines 6–32): reject a zero
amount; then walk `payable.balances` with a peekable iterator — at the
entry whose token equals the mint, fail with `InsufficientWithdrawAmount`
when its amount is below the request, succeed otherwise; fail with
`NoBalanceForWithdrawalToken` only after inspecting the last entry
without a token match.  A `while let` loop over an *empty* balances list
never runs, so the function returns `Ok(())` in that case. -/
def balances_check (bals : List TokenAndAmount) (mint amount : Nat) :
    Except Error Unit :=
  match bals with
  | [] => .ok ()
  | [b] =>
    if b.token = mint then
      if b.amount < amount then .error .InsufficientWithdrawAmount
      else .ok ()
    else .error .NoBalanceForWithdrawalToken
  | b :: rest =>
    if b.token = mint then
      if b.amount < amount then .error .InsufficientWithdrawAmount
      else .ok ()
    else balances_check rest mint amount

/-- `check_withdraw_inputs` entry point (withdraw.rs lines 6–32). -/
def check_withdraw_inputs (amount mint : Nat) (payable : Payable) :
    Except Error Unit :=
  if amount = 0 then .error .ZeroAmountSpecified
  else balances_check payable.balances mint amount

/-- The balance-deduction loop of `update_state_for_withdrawal`
(withdraw.rs lines 48–53): subtract `amount` from the first entry whose
token equals the mint with `checked_sub(..).unwrap()` and stop; when no
entry matches (in particular when the list is empty) the loop falls
through without touching anything and without panicking. -/
def sub_from_balances (bals : List TokenAndAmount) (mint amount : Nat) :
    Option (List TokenAndAmount) :=
  match bals with
  | [] => some []
  | b :: rest =>
    if b.token = mint then
      (checked_sub b.amount amount).map
        (fun a => { token := b.token, amount := a } :: rest)
    else
      (sub_from_balances rest mint amount).map (fun l => b :: l)

/-- `update_state_for_withdrawal` (withdraw.rs lines 34–82): bump the
global, payable and host withdrawal counters with
`checked_add(1).unwrap()`, deduct the balance entry, and initialize the
`Withdrawal` record from the freshly bumped counters. -/
def update_state_for_withdrawal (now amount mint : Nat)
    (global_stats : GlobalStats) (payable : Payable) (host : User) :
    Option (GlobalStats × Payable × User × Withdrawal) :=
  match u64_next global_stats.withdrawals_count with
  | none => none
  | some gwc =>
  let global_stats := { global_stats with withdrawals_count := gwc }
  match u64_next payable.withdrawals_count with
  | none => none
  | some pwc =>
  match sub_from_balances payable.balances mint amount with
  | none => none
  | some balances =>
  let payable :=
    { payable with withdrawals_count := pwc, balances := balances }
  match u64_next host.withdrawals_count with
  | none => none
  | some hwc =>
  let host := { host with withdrawals_count := hwc }
  let withdrawal : Withdrawal :=
    { global_count := gwc
      payable := payable.key
      payable_count := pwc
      host := host.key
      host_count := hwc
      timestamp := now
      details := { token := mint, amount := amount } }
  some (global_stats, payable, host, withdrawal)

/-- The accounts mutated by a withdrawal. -/
structure WState where
  payable : Payable
  global_stats : GlobalStats
  host : User
deriving DecidableEq, Repr

/-- `withdraw_handler` (withdraw.rs lines 88–123) together with the
`Withdraw` account context (context/withdraw.rs): the Anchor constraint
`payable.host == *signer.key @ NotYourPayable` is validated before the
handler body runs.  The handler then calls `check_withdraw_inputs` but —
as written in the source — drops its `Result` (the call at line 92 has no
question mark), so a failing check does **not** stop execution; the
transfer of `amount.checked_mul(98).unwrap().checked_div(100).unwrap()`
tokens and the state updates happen regardless.  The result is the new
account state, the created `Withdrawal`, and the quantity handed to the
SPL transfer. -/
def withdraw_handler (now signer amount mint : Nat) (st : WState) :
    Except Error (WState × Withdrawal × Nat) :=
  if st.payable.host ≠ signer then .error .NotYourPayable
  else
    let _chk := check_withdraw_inputs amount mint st.payable
    match checked_mul U64 amount 98 with
    | none => .error .panicked
    | some m =>
    let amount_minus_fees := m / 100
    match update_state_for_withdrawal now amount mint
        st.global_stats st.payable st.host with
    | none => .error .panicked
    | some (global_stats, payable, host, withdrawal) =>
      .ok ({ payable := payable, global_stats := global_stats,
             host := host }, withdrawal, amount_minus_fees)

end Sol

namespace Sol

/-- Modelled from the spec: `constants::ACTION_ID_WITHDRAW` (the
`constants` module is not in the provided sources).  Action ids
distinguish the payment action from the withdrawal action in an attested
message (§4.5); only equality with the decoded action id matters. -/
def ACTION_ID_WITHDRAW : Nat := 2

/-- The semantic fields of an already-attested Wormhole message as read
by `withdraw_received_handler`: the decoded caller identity, action id,
and the `CbTransaction` payload (`payload.extract()`, whose `payload`
module is not in the provided sources — fields follow the handler's
uses: the target payable id and the `(token, amount)` details). -/
structure VaaData where
  caller : Nat
  action_id : Nat
  payable_id : Nat
  token : Nat
  amount : Nat
deriving DecidableEq, Repr

/-- The attested message record: verified data plus the emitter chain id
(the attestation itself is an external collaborator, spec §6). -/
structure Vaa where
  data : VaaData
  emitter_chain : Nat
deriving DecidableEq, Repr

/-- The validation sequence of `withdraw_received_handler` (withdraw.rs
lines 134–195), in source order: the decoded caller must equal the
supplied `caller` argument and be non-zero (not all zero bytes), else
`InvalidCallerAddress`; the decoded action id must be
`ACTION_ID_WITHDRAW`, else `InvalidActionId` (the source line 154 spells
the comparison with `=`, a slip for `==` — the require! macro tests the
comparison); the host account's recorded wallet must equal the caller and
its chain id the message's emitter chain, else `UnauthorizedCallerAddress`;
the supplied `host_count` must equal `host.next_withdrawal()` — the next
expected withdrawal count, `withdrawals_count + 1` (§4.1) — else
`WrongWithdrawalsHostCountProvided`; the decoded payable id must equal the
target payable account's key, else `NotMatchingPayableId`; and the decoded
token and amount must match the wrapped mint and the locally supplied
amount, else `NotMatchingTransactionToken` / `NotMatchingTransactionAmount`.
After these, `check_withdraw_inputs` runs on the decoded amount. -/
def withdraw_received_checks (vaa : Vaa) (caller host_count : Nat)
    (host : User) (payable : Payable) (wrapped_mint amount : Nat) :
    Except Error Unit :=
  if ¬ (vaa.data.caller = caller ∧ caller ≠ 0) then
    .error .InvalidCallerAddress
  else if ¬ (vaa.data.action_id = ACTION_ID_WITHDRAW) then
    .error .InvalidActionId
  else if ¬ (host.owner_wallet = caller ∧ host.chain_id = vaa.emitter_chain)
  then .error .UnauthorizedCallerAddress
  else if ¬ (host_count = host.withdrawals_count + 1) then
    .error .WrongWithdrawalsHostCountProvided
  else if ¬ (payable.key = vaa.data.payable_id) then
    .error .NotMatchingPayableId
  else if ¬ (vaa.data.token = wrapped_mint) then
    .error .NotMatchingTransactionToken
  else if ¬ (vaa.data.amount = amount) then
    .error .NotMatchingTransactionAmount
  else .ok ()

/-- `state::TokenDetails` as used by `create_payable_handler`: the mint it
describes and whether that token is supported. -/
structure TokenDetails where
  mint : Nat
  is_supported : Bool
deriving DecidableEq, Repr

/-- `state::ChainStats` fields touched by `create_payable_handler`. -/
structure ChainStats where
  payables_count : Nat
  activities_count : Nat
deriving DecidableEq, Repr

/-- The per-entry checks of `create_payable_handler` (create_payable.rs
lines 24–42), walking the allowed pairs alongside the `TokenDetails`
accounts supplied through `remaining_accounts`: the pair's token must be
the details account's mint (`InvalidTokenDetailsAccount`), the token must
be supported (`UnsupportedToken`), and the pair's amount must be positive
(`ZeroAmountSpecified`). -/
def check_taas_with_details :
    List (TokenAndAmount × TokenDetails) → Except Error Unit
  | [] => .ok ()
  | (taa, td) :: rest =>
    if taa.token ≠ td.mint then .error .InvalidTokenDetailsAccount
    else if ¬ td.is_supported then .error .UnsupportedToken
    else if ¬ (taa.amount > 0) then .error .ZeroAmountSpecified
    else check_taas_with_details rest

/-- `create_payable_handler` (create_payable.rs lines 10–105): the length
of `remaining_accounts` must match the pair list
(`InvalidRemainingAccountsLength`), each pair must pass
`check_taas_with_details`, then the chain and host counters are bumped
(checked) and the payable account is initialized with the supplied allowed
pairs, empty balances, `payments_count = 0`, `withdrawals_count = 0`,
`activities_count = 1` and `is_closed = false`.  The per-chain payments
counter for Solana is initialized to `0` (returned last). -/
def create_payable_handler (now payable_key signer : Nat)
    (allowed_tokens_and_amounts : List TokenAndAmount)
    (remaining_accounts : List TokenDetails)
    (chain_stats : ChainStats) (host : User) :
    Except Error (ChainStats × User × Payable × Nat) :=
  if remaining_accounts.length ≠ allowed_tokens_and_amounts.length then
    .error .InvalidRemainingAccountsLength
  else
    match check_taas_with_details
        (allowed_tokens_and_amounts.zip remaining_accounts) with
    | .error e => .error e
    | .ok () =>
      match u64_next chain_stats.payables_count with
      | none => .error .panicked
      | some cs_pc =>
      match u64_next chain_stats.activities_count with
      | none => .error .panicked
      | some cs_ac =>
      let chain_stats := { payables_count := cs_pc, activities_count := cs_ac }
      match u64_next host.payables_count with
      | none => .error .panicked
      | some h_pc =>
      match u64_next host.activities_count with
      | none => .error .panicked
      | some h_ac =>
      let host :=
        { host with payables_count := h_pc, activities_count := h_ac }
      let payable : Payable :=
        { key := payable_key
          host := signer
          chain_count := cs_pc
          host_count := h_pc
          allowed_tokens_and_amounts := allowed_tokens_and_amounts
          balances := []
          created_at := now
          payments_count := 0
          withdrawals_count := 0
          activities_count := 1
          is_closed := false }
      .ok (chain_stats, host, payable, 0)

end Sol

namespace SolV1

/-- Modelled from the spec: `constants::MAX_PAYABLES_TOKENS`, the
configured maximum length of a payable's token/amount pair list (the
`constants` module is not in the provided sources; §4.2 "rejects if the
token/amount pair list exceeds a configured maximum length").  Only the
comparison against it matters, not its value. -/
def MAX_PAYABLES_TOKENS : Nat := 20

/-- Modelled from the spec: `constants::MAX_PAYABLES_DESCRIPTION_LENGTH`
(not in the provided sources); only the comparison matters. -/
def MAX_PAYABLES_DESCRIPTION_LENGTH : Nat := 3000

/-- Rust `str::trim` on a description modelled as its character list:
drop unicode whitespace from both ends. -/
def trimChars (l : List Char) : List Char :=
  ((l.dropWhile Char.isWhitespace).reverse.dropWhile
    Char.isWhitespace).reverse

/-- Rust `str::len` (UTF-8 byte count) of a character list. -/
def utf8Len (l : List Char) : Nat := (l.map Char.utf8Size).sum

/-- The first-generation Solana payable initialized by
`initialize_payable_handler` (instructions/payable/initialize_payable.rs). -/
structure Payable where
  global_count : Nat
  host : Nat
  host_count : Nat
  description : List Char
  tokens_and_amounts : List Sol.TokenAndAmount
  balances : List Sol.TokenAndAmount
  allows_free_payments : Bool
  created_at : Nat
  payments_count : Nat
  withdrawals_count : Nat
  is_closed : Bool
deriving DecidableEq, Repr

/-- The first `taa.amount > 0` loop check of `initialize_payable_handler`
(lines 81–83): error at the first entry with a zero amount. -/
def check_amounts_positive :
    List Sol.TokenAndAmount → Except Sol.Error Unit
  | [] => .ok ()
  | taa :: rest =>
    if ¬ (taa.amount > 0) then .error .ZeroAmountSpecified
    else check_amounts_positive rest

/-- `initialize_payable_handler` (initialize_payable.rs lines 46–117), in
source order: non-blank description (`EmptyDescriptionProvided`),
description length bound (`MaxPayableDescriptionReached`), pair-list
length bound (`MaxPayableTokensCapacityReached`), the
free-payments/explicit-list exclusive-or (`ImproperPayablesConfiguration`),
all amounts positive (`ZeroAmountSpecified`); then bump the global and
host payable counters (checked) and initialize the payable with empty
balances, `payments_count = 0`, `withdrawals_count = 0` and
`is_closed = false`. -/
def initialize_payable_handler (now host_key : Nat)
    (description : List Char)
    (tokens_and_amounts : List Sol.TokenAndAmount)
    (allows_free_payments : Bool)
    (global_stats : Sol.GlobalStats) (host : Sol.User) :
    Except Sol.Error (Sol.GlobalStats × Sol.User × Payable) :=
  if (trimChars description).length = 0 then
    .error .EmptyDescriptionProvided
  else if ¬ (utf8Len description ≤ MAX_PAYABLES_DESCRIPTION_LENGTH) then
    .error .MaxPayableDescriptionReached
  else if ¬ (tokens_and_amounts.length ≤ MAX_PAYABLES_TOKENS) then
    .error .MaxPayableTokensCapacityReached
  else if ¬ ((allows_free_payments = true ∧ tokens_and_amounts.length = 0) ∨
             (allows_free_payments = false ∧ tokens_and_amounts.length > 0))
  then .error .ImproperPayablesConfiguration
  else
    match check_amounts_positive tokens_and_amounts with
    | .error e => .error e
    | .ok () =>
      match u64_next global_stats.payables_count with
      | none => .error .panicked
      | some g_pc =>
      let global_stats := { global_stats with payables_count := g_pc }
      match u64_next host.payables_count with
      | none => .error .panicked
      | some h_pc =>
      let host := { host with payables_count := h_pc }
      let payable : Payable :=
        { global_count := g_pc
          host := host_key
          host_count := h_pc
          description := trimChars description
          tokens_and_amounts := tokens_and_amounts
          balances := []
          allows_free_payments := allows_free_payments
          created_at := now
          payments_count := 0
          withdrawals_count := 0
          is_closed := false }
      .ok (global_stats, host, payable)

end SolV1

namespace Sol

/-- First balance entry for a mint, if any (as for the CosmWasm side,
balances hold at most one entry per token in reachable states). -/
def lookup_balance (bals : List TokenAndAmount) (mint : Nat) : Option Nat :=
  match bals with
  | [] => none
  | b :: rest => if b.token = mint then some b.amount
                 else lookup_balance rest mint

end Sol

/-! ## Concrete fixtures used by witnesses -/

def envW : Cw.PayEnv :=
  { sender := 5, contract_addr := 100, paid_native := 50, now := 11 }

def mkStW (p : Option Cw.Payable) : Cw.State :=
  { payable := p
    chain_stats := { chain_id := 3, payments_count := 0 }
    user := none
    supported_tokens := [7]
    user_payment_ids := none
    payable_payment_ids := none
    payable_chain_count := none
    user_payments := []
    payable_payments := [] }

def pyblOpen : Cw.Payable :=
  { host := 1, payments_count := 0, withdrawals_count := 0
    is_closed := false, allowed_tokens_and_amounts := [], balances := [] }

def pyblClosed : Cw.Payable := { pyblOpen with is_closed := true }

def pyblAta : Cw.Payable :=
  { pyblOpen with allowed_tokens_and_amounts := [{ token := 7, amount := 100 }] }

/-- The state after one successful concrete payment of `(7, 50)`. -/
def stWPaid : Cw.State :=
  (Cw.pay envW (mkStW (some pyblOpen)) 9 7 50).toOption.getD (mkStW none)

/-- The payable inside `stWPaid`. -/
def pyblPaid : Cw.Payable := stWPaid.payable.getD pyblOpen

/-- The state after two successful concrete payments of `(7, 50)`. -/
def stWPaid2 : Cw.State :=
  (Cw.pay_seq envW (mkStW (some pyblOpen)) 9
    [(7, 50), (7, 50)]).toOption.getD (mkStW none)

/-! ## Solana fixtures -/

def pyblSol : Sol.Payable :=
  { key := 1, host := 9, chain_count := 1, host_count := 1
    allowed_tokens_and_amounts := []
    balances := [{ token := 7, amount := 100 }]
    created_at := 0, payments_count := 1, withdrawals_count := 0
    activities_count := 1, is_closed := false }

def pyblSolClosed : Sol.Payable := { pyblSol with is_closed := true }

def pyblSolNoBal : Sol.Payable := { pyblSol with balances := [] }

def userSol : Sol.User :=
  { key := 9, owner_wallet := 9, chain_id := 1, payables_count := 1
    withdrawals_count := 0, activities_count := 1 }

def gsSol : Sol.GlobalStats :=
  { users_count := 1, payables_count := 1, payments_count := 1
    withdrawals_count := 0 }

def wstSol : Sol.WState :=
  { payable := pyblSol, global_stats := gsSol, host := userSol }

def wstSolClosed : Sol.WState := { wstSol with payable := pyblSolClosed }

def vaaW : Sol.Vaa :=
  { data := { caller := 9, action_id := Sol.ACTION_ID_WITHDRAW
              payable_id := 1, token := 7, amount := 51 }
    emitter_chain := 1 }

def csSol : Sol.ChainStats := { payables_count := 1, activities_count := 1 }

def descW : List Char := ['I', 'n', 'v', 'o', 'i', 'c', 'e']

def taasZero : List Sol.TokenAndAmount := [{ token := 7, amount := 0 }]

def detZero : List Sol.TokenDetails := [{ mint := 7, is_supported := true }]

def taasLong : List Sol.TokenAndAmount :=
  List.replicate (SolV1.MAX_PAYABLES_TOKENS + 1) { token := 7, amount := 1 }

def pyblC10 : Cw.Payable := { pyblOpen with payments_count := 2 }


/-! ## Lemmas about the allowed-token matching loop -/

theorem allowed_check_ok_of_mem {ataa : List Cw.TokenAndAmount}
    {token amount : Nat}
    (h : ∃ taa ∈ ataa, taa.token = token ∧ taa.amount = amount) :
    Cw.allowed_check ataa token amount = .ok () := by
  induction ataa with
  | nil => simp at h
  | cons taa rest ih =>
    rcases h with ⟨x, hx, hxt, hxa⟩
    cases rest with
    | nil =>
      simp at hx
      subst hx
      simp [Cw.allowed_check, hxt, hxa]
    | cons b l =>
      rcases List.mem_cons.mp hx with h1 | h2
      · subst h1
        simp [Cw.allowed_check, hxt, hxa]
      · by_cases hm : taa.token = token ∧ taa.amount = amount
        · simp [Cw.allowed_check, hm]
        · simpa [Cw.allowed_check, hm] using ih ⟨x, h2, hxt, hxa⟩

theorem allowed_check_error_of_no_match {ataa : List Cw.TokenAndAmount}
    {token amount : Nat} (hne : ataa ≠ [])
    (h : ∀ taa ∈ ataa, ¬ (taa.token = token ∧ taa.amount = amount)) :
    Cw.allowed_check ataa token amount =
      .error .MatchingTokenAndAmountNotFound := by
  induction ataa with
  | nil => exact absurd rfl hne
  | cons taa rest ih =>
    have htaa := h taa (List.mem_cons_self taa rest)
    cases rest with
    | nil => simp [Cw.allowed_check, htaa]
    | cons b l =>
      have : Cw.allowed_check (b :: l) token amount =
          .error .MatchingTokenAndAmountNotFound :=
        ih (by simp) (fun x hx => h x (List.mem_cons_of_mem _ hx))
      simpa [Cw.allowed_check, htaa] using this

/-- C4: for every payment request, validation is fail-fast with the first
failing check winning, in this exact order: a nonexistent payable fails
with `InvalidPayableId`; a closed payable fails with `PayableIsClosed`; a
zero amount fails with `ZeroAmountSpecified`; a token that is not globally
supported fails with `InvalidToken`; a `(token, amount)` pair not in a
non-empty allowed set fails with `MatchingTokenAndAmountNotFound`.  The
error return of the embedded `pay` carries no state, mirroring the
CosmWasm rollback: no state is mutated when any check fails. -/
theorem C4_pay_validation_order (env : Cw.PayEnv) (st : Cw.State)
    (pid token amount : Nat) :
    (st.payable = none →
      Cw.pay env st pid token amount = .error .InvalidPayableId) ∧
    (∀ p, st.payable = some p → p.is_closed = true →
      Cw.pay env st pid token amount = .error .PayableIsClosed) ∧
    (∀ p, st.payable = some p → p.is_closed = false → amount = 0 →
      Cw.pay env st pid token amount = .error .ZeroAmountSpecified) ∧
    (∀ p, st.payable = some p → p.is_closed = false → amount ≠ 0 →
      token ∉ st.supported_tokens →
      Cw.pay env st pid token amount = .error .InvalidToken) ∧
    (∀ p, st.payable = some p → p.is_closed = false → amount ≠ 0 →
      token ∈ st.supported_tokens →
      p.allowed_tokens_and_amounts ≠ [] →
      (∀ taa ∈ p.allowed_tokens_and_amounts,
        ¬ (taa.token = token ∧ taa.amount = amount)) →
      Cw.pay env st pid token amount =
        .error .MatchingTokenAndAmountNotFound) := by
  refine ⟨?_, ?_, ?_, ?_, ?_⟩
  · intro h; simp [Cw.pay, h]
  · intro p hp hc; simp [Cw.pay, hp, hc]
  · intro p hp hc hz; simp [Cw.pay, hp, hc, hz]
  · intro p hp hc hz ht; simp [Cw.pay, hp, hc, hz, ht]
  · intro p hp hc hz ht hne hnm
    simp [Cw.pay, hp, hc, hz, ht,
      allowed_check_error_of_no_match hne hnm]

theorem C4_pay_validation_order_witness :
    Cw.pay envW (mkStW none) 9 7 50 = .error .InvalidPayableId ∧
    Cw.pay envW (mkStW (some pyblClosed)) 9 7 50 = .error .PayableIsClosed ∧
    Cw.pay envW (mkStW (some pyblOpen)) 9 7 0 = .error .ZeroAmountSpecified ∧
    Cw.pay envW (mkStW (some pyblOpen)) 9 8 50 = .error .InvalidToken ∧
    Cw.pay envW (mkStW (some pyblAta)) 9 7 50 =
      .error .MatchingTokenAndAmountNotFound :=
  ⟨(C4_pay_validation_order envW (mkStW none) 9 7 50).1 rfl,
   (C4_pay_validation_order envW (mkStW (some pyblClosed)) 9 7 50).2.1
     pyblClosed rfl rfl,
   (C4_pay_validation_order envW (mkStW (some pyblOpen)) 9 7 0).2.2.1
     pyblOpen rfl rfl rfl,
   (C4_pay_validation_order envW (mkStW (some pyblOpen)) 9 8 50).2.2.2.1
     pyblOpen rfl rfl (by decide) (by decide),
   (C4_pay_validation_order envW (mkStW (some pyblAta)) 9 7 50).2.2.2.2
     pyblAta rfl rfl (by decide) (by decide) (by decide) (by decide)⟩

/-- Once all checks have passed, the state-changes section can only fail
by an `unwrap` panic (counter or balance overflow). -/
theorem pay_commit_error_panic {env : Cw.PayEnv} {st : Cw.State}
    {pid : Nat} {p : Cw.Payable} {token amount : Nat} {e : Cw.Error}
    (h : Cw.pay_commit env st pid p token amount = .error e) :
    e = .panicked := by
  unfold Cw.pay_commit at h
  dsimp only at h
  repeat' split at h
  all_goals simp_all

/-- C7: a payment to a payable whose allowed set is empty never fails the
token/amount matching check (given an open payable, a nonzero amount and
a supported token); for a non-empty allowed set the payment fails with
`MatchingTokenAndAmountNotFound` exactly when `(token, amount)` equals no
entry of the set — matching is exact-amount, not at-least. -/
theorem C7_allowed_set_matching (env : Cw.PayEnv) (st : Cw.State)
    (pid token amount : Nat) (p : Cw.Payable)
    (hp : st.payable = some p) (hopen : p.is_closed = false)
    (hnz : amount ≠ 0) (hsup : token ∈ st.supported_tokens) :
    (p.allowed_tokens_and_amounts = [] →
      Cw.pay env st pid token amount ≠
        .error .MatchingTokenAndAmountNotFound) ∧
    (p.allowed_tokens_and_amounts ≠ [] →
      (Cw.pay env st pid token amount =
          .error .MatchingTokenAndAmountNotFound ↔
        ¬ ∃ taa ∈ p.allowed_tokens_and_amounts,
            taa.token = token ∧ taa.amount = amount)) := by
  constructor
  · intro hempty hpay
    simp only [Cw.pay, hp, hopen, Bool.false_eq_true, if_false, hnz,
      if_neg hnz, hsup, not_true, hempty, Cw.allowed_check] at hpay
    split at hpay
    · simp at hpay
    · exact absurd (pay_commit_error_panic hpay) (by simp)
  · intro hne
    constructor
    · intro hpay hex
      have hok := allowed_check_ok_of_mem hex
      simp only [Cw.pay, hp, hopen, Bool.false_eq_true, if_false, hnz,
        if_neg hnz, hsup, not_true, hok] at hpay
      split at hpay
      · simp at hpay
      · exact absurd (pay_commit_error_panic hpay) (by simp)
    · intro hnm
      push_neg at hnm
      have herr := allowed_check_error_of_no_match hne
        (fun taa htaa => by
          intro hc
          exact absurd hc.2 (hnm taa htaa hc.1))
      simp [Cw.pay, hp, hopen, hnz, hsup, herr]

theorem C7_allowed_set_matching_witness :
    (Cw.pay envW (mkStW (some pyblOpen)) 9 7 50 ≠
      .error .MatchingTokenAndAmountNotFound) ∧
    (Cw.pay envW (mkStW (some pyblAta)) 9 7 50 =
        .error .MatchingTokenAndAmountNotFound ↔
      ¬ ∃ taa ∈ pyblAta.allowed_tokens_and_amounts,
          taa.token = 7 ∧ taa.amount = 50) :=
  ⟨(C7_allowed_set_matching envW (mkStW (some pyblOpen)) 9 7 50 pyblOpen
      rfl rfl (by decide) (by decide)).1 rfl,
   (C7_allowed_set_matching envW (mkStW (some pyblAta)) 9 7 50 pyblAta
      rfl rfl (by decide) (by decide)).2 (by decide)⟩

theorem u64_next_eq_some {c x : Nat} (h : u64_next c = some x) :
    x = c + 1 ∧ c + 1 < U64 := by
  unfold u64_next checked_add at h
  split at h <;> simp_all

/-- Inversion of a successful `pay`: the payable existed, its balances
absorbed the amount via `add_to_balances`, its `payments_count` was
bumped by exactly one (checked), and exactly one id/record pair was
appended to the payable-indexed payment lists, the record carrying the
bumped count as its payable-scoped sequence number. -/
theorem pay_ok_inv {env : Cw.PayEnv} {st : Cw.State}
    {pid token amount : Nat} {st' : Cw.State}
    (h : Cw.pay env st pid token amount = .ok st') :
    ∃ p bals,
      st.payable = some p ∧
      Cw.add_to_balances p.balances token amount = some bals ∧
      p.payments_count + 1 < U64 ∧
      st'.payable = some { p with payments_count := p.payments_count + 1,
                                  balances := bals } ∧
      ∃ i pp,
        st'.payable_payment_ids =
          some (st.payable_payment_ids.getD [] ++ [i]) ∧
        st'.payable_payments = st.payable_payments ++ [(i, pp)] ∧
        pp.payable_count = p.payments_count + 1 := by
  unfold Cw.pay at h
  repeat' split at h
  all_goals try exact Except.noConfusion h
  all_goals (
    rename_i op p hp hncl hnz hns oac hac hnat
    unfold Cw.pay_commit at h
    dsimp only at h
    repeat' split at h
    all_goals try exact Except.noConfusion h
    all_goals (
      rename_i ocs csc hcs ou uc hu opc ppc hppc ob bls hbls ol lcc hlcc
      injection h with h
      subst h
      obtain ⟨hp1, hp2⟩ := u64_next_eq_some hppc
      subst hp1
      exact ⟨p, bls, hp, hbls, hp2, rfl, _, _, rfl, rfl, rfl⟩))

theorem add_to_balances_lookup {bals : List Cw.TokenAndAmount}
    {token amount : Nat} {bals' : List Cw.TokenAndAmount}
    (h : Cw.add_to_balances bals token amount = some bals') :
    Cw.lookup_balance bals' token =
      some ((Cw.lookup_balance bals token).getD 0 + amount) := by
  induction bals generalizing bals' with
  | nil =>
    simp [Cw.add_to_balances] at h
    subst h
    simp [Cw.lookup_balance]
  | cons b rest ih =>
    by_cases hb : b.token = token
    · simp only [Cw.add_to_balances, hb, if_pos] at h
      unfold checked_add at h
      split at h
      · simp only [Option.map_some'] at h
        injection h with h
        subst h
        simp [Cw.lookup_balance, hb]
      · simp at h
    · simp only [Cw.add_to_balances, hb, if_neg, if_false] at h
      cases hr : Cw.add_to_balances rest token amount with
      | none => rw [hr] at h; simp at h
      | some l =>
        rw [hr] at h
        simp only [Option.map_some'] at h
        injection h with h
        subst h
        simp [Cw.lookup_balance, hb, ih hr]

theorem add_to_balances_absent {bals : List Cw.TokenAndAmount}
    {token amount : Nat}
    (h : Cw.lookup_balance bals token = none) :
    Cw.add_to_balances bals token amount =
      some (bals ++ [{ token := token, amount := amount }]) := by
  induction bals with
  | nil => simp [Cw.add_to_balances]
  | cons b rest ih =>
    by_cases hb : b.token = token
    · simp [Cw.lookup_balance, hb] at h
    · simp only [Cw.lookup_balance, hb, if_neg, if_false] at h
      simp [Cw.add_to_balances, hb, ih h]

theorem add_to_balances_tokens {bals : List Cw.TokenAndAmount}
    {token amount : Nat} {bals' : List Cw.TokenAndAmount}
    (h : Cw.add_to_balances bals token amount = some bals') (u : Nat) :
    u ∈ bals'.map (fun b => b.token) ↔
      u ∈ bals.map (fun b => b.token) ∨ u = token := by
  induction bals generalizing bals' with
  | nil =>
    simp [Cw.add_to_balances] at h
    subst h
    simp
  | cons b rest ih =>
    by_cases hb : b.token = token
    · simp only [Cw.add_to_balances, hb, if_pos] at h
      unfold checked_add at h
      split at h
      · simp only [Option.map_some'] at h
        injection h with h
        subst h
        subst hb
        simp only [List.map_cons, List.mem_cons]
        tauto
      · simp at h
    · simp only [Cw.add_to_balances, hb, if_neg, if_false] at h
      cases hr : Cw.add_to_balances rest token amount with
      | none => rw [hr] at h; simp at h
      | some l =>
        rw [hr] at h
        simp only [Option.map_some'] at h
        injection h with h
        subst h
        simp only [List.map_cons, List.mem_cons, ih hr]
        tauto

theorem pay_seq_tokens (env : Cw.PayEnv) (pid : Nat)
    (msgs : List (Nat × Nat)) :
    ∀ (st st' : Cw.State) (p p' : Cw.Payable),
      st.payable = some p →
      Cw.pay_seq env st pid msgs = .ok st' →
      st'.payable = some p' →
      ∀ u, u ∈ p'.balances.map (fun b => b.token) ↔
        u ∈ p.balances.map (fun b => b.token) ∨ ∃ m ∈ msgs, m.1 = u := by
  induction msgs with
  | nil =>
    intro st st' p p' hp hseq hp'
    simp only [Cw.pay_seq] at hseq
    injection hseq with hseq
    subst hseq
    rw [hp] at hp'
    injection hp' with hp'
    subst hp'
    simp
  | cons m ms ih =>
    intro st st' p p' hp hseq hp' u
    simp only [Cw.pay_seq] at hseq
    cases hpay : Cw.pay env st pid m.1 m.2 with
    | error e => rw [hpay] at hseq; exact Except.noConfusion hseq
    | ok st1 =>
      rw [hpay] at hseq
      obtain ⟨q, bals, hq, hbal, _, hst1, _⟩ := pay_ok_inv hpay
      rw [hp] at hq
      injection hq with hq
      subst hq
      have hmid := ih st1 st' _ p' hst1 hseq hp' u
      rw [hmid]
      have hadd := add_to_balances_tokens hbal u
      simp only at hadd
      rw [hadd]
      constructor
      · rintro ((h1 | h2) | ⟨x, hx, hxu⟩)
        · exact .inl h1
        · exact .inr ⟨m, List.mem_cons_self m ms, h2.symm⟩
        · exact .inr ⟨x, List.mem_cons_of_mem m hx, hxu⟩
      · rintro (h1 | ⟨x, hx, hxu⟩)
        · exact .inl (.inl h1)
        · rcases List.mem_cons.mp hx with h2 | h2
          · subst h2
            exact .inl (.inr hxu.symm)
          · exact .inr ⟨x, h2, hxu⟩

/-- C1: for every successful payment of `(token, amount)` to a payable,
the payable's balance entry for that token after the commit equals its
value before plus `amount` (the equality is exact over `Nat`: the source
uses `checked_add`, whose overflow aborts the transaction instead of
silently wrapping — see `add_to_balances` and `pay_commit`); if no entry
for that token existed, a new entry holding exactly `amount` is appended;
and over any sequence of successful payments starting from a payable with
empty balances, an entry for a token exists iff at least one payment in
that token was accepted. -/
theorem C1_pay_balance_update (env : Cw.PayEnv) (st : Cw.State)
    (pid token amount : Nat) :
    (∀ st' p, st.payable = some p →
      Cw.pay env st pid token amount = .ok st' →
      ∃ p', st'.payable = some p' ∧
        Cw.lookup_balance p'.balances token =
          some ((Cw.lookup_balance p.balances token).getD 0 + amount) ∧
        (Cw.lookup_balance p.balances token = none →
          p'.balances =
            p.balances ++ [{ token := token, amount := amount }])) ∧
    (∀ (msgs : List (Nat × Nat)) (st' : Cw.State) (p p' : Cw.Payable),
      st.payable = some p → p.balances = [] →
      Cw.pay_seq env st pid msgs = .ok st' → st'.payable = some p' →
      ∀ u, (∃ b ∈ p'.balances, b.token = u) ↔ ∃ m ∈ msgs, m.1 = u) := by
  constructor
  · intro st' p hp hok
    obtain ⟨q, bals, hq, hbal, _, hst', _⟩ := pay_ok_inv hok
    rw [hp] at hq
    injection hq with hq
    subst hq
    refine ⟨_, hst', add_to_balances_lookup hbal, ?_⟩
    intro habs
    have := @add_to_balances_absent p.balances token amount habs
    rw [this] at hbal
    injection hbal with hbal
    exact hbal.symm
  · intro msgs st' p p' hp hemp hseq hp' u
    have := pay_seq_tokens env pid msgs st st' p p' hp hseq hp' u
    rw [hemp] at this
    simp only [List.map_nil, List.not_mem_nil, false_or] at this
    rw [← this]
    constructor
    · rintro ⟨b, hb, hbu⟩
      exact List.mem_map.mpr ⟨b, hb, hbu⟩
    · intro hm
      rcases List.mem_map.mp hm with ⟨b, hb, hbu⟩
      exact ⟨b, hb, hbu⟩

theorem C1_pay_balance_update_witness :
    (∃ p', stWPaid.payable = some p' ∧
      Cw.lookup_balance p'.balances 7 =
        some ((Cw.lookup_balance pyblOpen.balances 7).getD 0 + 50) ∧
      (Cw.lookup_balance pyblOpen.balances 7 = none →
        p'.balances =
          pyblOpen.balances ++ [{ token := 7, amount := 50 }])) ∧
    ((∃ b ∈ pyblPaid.balances, b.token = 7) ↔
      ∃ m ∈ [((7 : Nat), (50 : Nat))], m.1 = 7) :=
  ⟨(C1_pay_balance_update envW (mkStW (some pyblOpen)) 9 7 50).1
      stWPaid pyblOpen rfl rfl,
   (C1_pay_balance_update envW (mkStW (some pyblOpen)) 9 7 50).2
      [(7, 50)] stWPaid pyblOpen pyblPaid rfl rfl rfl rfl 7⟩

theorem pay_seq_counts (env : Cw.PayEnv) (pid : Nat)
    (msgs : List (Nat × Nat)) :
    ∀ (st st' : Cw.State) (p : Cw.Payable),
      st.payable = some p →
      (st.payable_payment_ids.getD []).length = p.payments_count →
      st.payable_payments.map (fun x => x.2.payable_count) =
        List.range' 1 p.payments_count →
      Cw.pay_seq env st pid msgs = .ok st' →
      ∃ p', st'.payable = some p' ∧
        p'.payments_count = p.payments_count + msgs.length ∧
        (st'.payable_payment_ids.getD []).length = p'.payments_count ∧
        st'.payable_payments.map (fun x => x.2.payable_count) =
          List.range' 1 p'.payments_count := by
  induction msgs with
  | nil =>
    intro st st' p hp hlen hmap hseq
    simp only [Cw.pay_seq] at hseq
    injection hseq with hseq
    subst hseq
    exact ⟨p, hp, by simp, hlen, hmap⟩
  | cons m ms ih =>
    intro st st' p hp hlen hmap hseq
    simp only [Cw.pay_seq] at hseq
    cases hpay : Cw.pay env st pid m.1 m.2 with
    | error e => rw [hpay] at hseq; exact Except.noConfusion hseq
    | ok st1 =>
      rw [hpay] at hseq
      obtain ⟨q, bals, hq, hbal, hlt, hst1, i, pp, hids1, hpps1, hppc⟩ :=
        pay_ok_inv hpay
      rw [hp] at hq
      injection hq with hq
      subst hq
      have hlen1 : (st1.payable_payment_ids.getD []).length =
          p.payments_count + 1 := by
        rw [hids1]
        simp [hlen]
      have hmap1 : st1.payable_payments.map (fun x => x.2.payable_count) =
          List.range' 1 (p.payments_count + 1) := by
        rw [hpps1]
        simp only [List.map_append, hmap, List.map_cons, List.map_nil, hppc]
        have hc : List.range' 1 (p.payments_count + 1) =
            List.range' 1 p.payments_count ++ [1 + 1 * p.payments_count] :=
          List.range'_concat 1 p.payments_count
        rw [hc, Nat.one_mul, Nat.add_comm 1 p.payments_count]
      obtain ⟨p', hp', hc', hl', hm'⟩ := ih st1 st' _ hst1 hlen1 hmap1 hseq
      refine ⟨p', hp', ?_, hl', hm'⟩
      simp only at hc'
      rw [hc']
      simp [List.length_cons]
      omega

/-- C6: starting from a freshly created payable (zero `payments_count`,
no payment-id list, no payment records), any sequence of `N` successful
payments leaves `payable.payments_count = N`, a per-payable payment-id
list of length exactly `N`, and payable-scoped sequence numbers
`1, 2, …, N` in the successive `PayablePayment` records — in particular
strictly increasing. -/
theorem C6_payment_sequence (env : Cw.PayEnv) (pid : Nat)
    (msgs : List (Nat × Nat)) (st st' : Cw.State) (p : Cw.Payable)
    (hp : st.payable = some p) (h0 : p.payments_count = 0)
    (hids : st.payable_payment_ids = none)
    (hpps : st.payable_payments = [])
    (hseq : Cw.pay_seq env st pid msgs = .ok st') :
    ∃ p', st'.payable = some p' ∧
      p'.payments_count = msgs.length ∧
      (st'.payable_payment_ids.getD []).length = msgs.length ∧
      st'.payable_payments.map (fun x => x.2.payable_count) =
        List.range' 1 msgs.length ∧
      (st'.payable_payments.map
        (fun x => x.2.payable_count)).Pairwise (· < ·) := by
  obtain ⟨p', hp', hc, hl, hm⟩ :=
    pay_seq_counts env pid msgs st st' p hp
      (by rw [hids, h0]; rfl) (by rw [hpps, h0]; rfl) hseq
  rw [h0, Nat.zero_add] at hc
  refine ⟨p', hp', hc, by rw [hl, hc], by rw [hm, hc], ?_⟩
  rw [hm, hc]
  exact List.pairwise_lt_range' 1 msgs.length

theorem C6_payment_sequence_witness :
    ∃ p', stWPaid2.payable = some p' ∧
      p'.payments_count = ([((7 : Nat), (50 : Nat)), (7, 50)]).length ∧
      (stWPaid2.payable_payment_ids.getD []).length =
        ([((7 : Nat), (50 : Nat)), (7, 50)]).length ∧
      stWPaid2.payable_payments.map (fun x => x.2.payable_count) =
        List.range' 1 ([((7 : Nat), (50 : Nat)), (7, 50)]).length ∧
      (stWPaid2.payable_payments.map
        (fun x => x.2.payable_count)).Pairwise (· < ·) :=
  C6_payment_sequence envW 9 [(7, 50), (7, 50)]
    (mkStW (some pyblOpen)) stWPaid2 pyblOpen rfl rfl rfl rfl rfl


theorem sub_from_balances_some {bals : List Sol.TokenAndAmount}
    {mint amount b : Nat}
    (h : Sol.lookup_balance bals mint = some b) (hle : amount ≤ b) :
    ∃ l, Sol.sub_from_balances bals mint amount = some l ∧
      Sol.lookup_balance l mint = some (b - amount) := by
  induction bals with
  | nil => simp [Sol.lookup_balance] at h
  | cons c rest ih =>
    by_cases hc : c.token = mint
    · simp only [Sol.lookup_balance, hc, if_pos] at h
      injection h with h
      subst h
      refine ⟨{ token := c.token, amount := c.amount - amount } :: rest, ?_, ?_⟩
      · simp [Sol.sub_from_balances, hc, checked_sub, hle]
      · simp [Sol.lookup_balance, hc]
    · simp only [Sol.lookup_balance, hc, if_neg, if_false] at h
      obtain ⟨l, hl, hlook⟩ := ih h
      refine ⟨c :: l, ?_, ?_⟩
      · simp [Sol.sub_from_balances, hc, hl]
      · simp [Sol.lookup_balance, hc, hlook]

theorem update_state_for_withdrawal_some {now amount mint : Nat}
    {gs : Sol.GlobalStats} {payable : Sol.Payable} {host : Sol.User}
    {bals : List Sol.TokenAndAmount}
    (hg : gs.withdrawals_count + 1 < U64)
    (hp : payable.withdrawals_count + 1 < U64)
    (hh : host.withdrawals_count + 1 < U64)
    (hsub : Sol.sub_from_balances payable.balances mint amount = some bals) :
    Sol.update_state_for_withdrawal now amount mint gs payable host =
      some ({ gs with withdrawals_count := gs.withdrawals_count + 1 },
            { payable with
                withdrawals_count := payable.withdrawals_count + 1
                balances := bals },
            { host with withdrawals_count := host.withdrawals_count + 1 },
            { global_count := gs.withdrawals_count + 1
              payable := payable.key
              payable_count := payable.withdrawals_count + 1
              host := host.key
              host_count := host.withdrawals_count + 1
              timestamp := now
              details := { token := mint, amount := amount } }) := by
  unfold Sol.update_state_for_withdrawal
  simp [u64_next, checked_add, hg, hp, hh, hsub]

/-- A successful withdrawal: the handler succeeds, hands
`amount * 98 / 100` (truncating division) to the SPL transfer, deducts
the full gross `amount` from the payable's balance entry exactly once,
bumps the withdrawal counters by one, and records the gross amount in the
`Withdrawal`. -/
theorem withdraw_handler_ok {now signer amount mint : Nat}
    {st : Sol.WState} {b : Nat}
    (hhost : st.payable.host = signer)
    (hbal : Sol.lookup_balance st.payable.balances mint = some b)
    (hle : amount ≤ b)
    (hmul : amount * 98 < U64)
    (hg : st.global_stats.withdrawals_count + 1 < U64)
    (hpw : st.payable.withdrawals_count + 1 < U64)
    (hhw : st.host.withdrawals_count + 1 < U64) :
    ∃ st' w, Sol.withdraw_handler now signer amount mint st =
        .ok (st', w, amount * 98 / 100) ∧
      Sol.lookup_balance st'.payable.balances mint = some (b - amount) ∧
      st'.payable.withdrawals_count = st.payable.withdrawals_count + 1 ∧
      st'.global_stats.withdrawals_count =
        st.global_stats.withdrawals_count + 1 ∧
      w.details.amount = amount := by
  obtain ⟨l, hsub, hlook⟩ := sub_from_balances_some hbal hle
  have hrun : Sol.withdraw_handler now signer amount mint st =
      .ok ({ payable := { st.payable with
                withdrawals_count := st.payable.withdrawals_count + 1
                balances := l }
             global_stats := { st.global_stats with
                withdrawals_count := st.global_stats.withdrawals_count + 1 }
             host := { st.host with
                withdrawals_count := st.host.withdrawals_count + 1 } },
           { global_count := st.global_stats.withdrawals_count + 1
             payable := st.payable.key
             payable_count := st.payable.withdrawals_count + 1
             host := st.host.key
             host_count := st.host.withdrawals_count + 1
             timestamp := now
             details := { token := mint, amount := amount } },
           amount * 98 / 100) := by
    unfold Sol.withdraw_handler
    rw [if_neg (by simp [hhost])]
    simp only [checked_mul, hmul, if_pos,
      update_state_for_withdrawal_some hg hpw hhw hsub]
  exact ⟨_, _, hrun, hlook, rfl, rfl, rfl⟩

/-- C2, counterexample to the claim as stated: withdrawing `51` from a
balance of `100` hands `51 * 98 / 100 = 49` tokens to the transfer, but
`amount − floor(amount × 2/100) = 51 − 1 = 50`; the two formulas the
claim equates disagree, so the transferred quantity is *not*
`amount − floor(amount × 2/100)`. -/
theorem C2_fee_counterexample :
    (Sol.withdraw_handler 0 9 51 7 wstSol).toOption.map
        (fun r => r.2.2) = some 49 ∧
    51 - 51 * 2 / 100 = 50 ∧ (49 : Nat) ≠ 50 :=
  ⟨rfl, rfl, by decide⟩

/-- C2 (amended): for every successful withdrawal, the payable's balance
entry for the token is reduced by exactly the full requested gross
`amount` — once, not again for the fee — while the quantity handed to the
SPL transfer is `amount × 98 / 100` with integer division truncating
toward zero (which differs from `amount − floor(amount × 2/100)` for
some amounts, e.g. 51), and the `Withdrawal` record stores the gross
amount. -/
theorem C2_withdraw_gross_and_fee {now signer amount mint : Nat}
    {st : Sol.WState} {b : Nat}
    (hhost : st.payable.host = signer)
    (hbal : Sol.lookup_balance st.payable.balances mint = some b)
    (hle : amount ≤ b)
    (hmul : amount * 98 < U64)
    (hg : st.global_stats.withdrawals_count + 1 < U64)
    (hpw : st.payable.withdrawals_count + 1 < U64)
    (hhw : st.host.withdrawals_count + 1 < U64) :
    ∃ st' w, Sol.withdraw_handler now signer amount mint st =
        .ok (st', w, amount * 98 / 100) ∧
      Sol.lookup_balance st'.payable.balances mint = some (b - amount) ∧
      w.details.amount = amount :=
  let ⟨st', w, hrun, hlook, _, _, hdet⟩ :=
    withdraw_handler_ok hhost hbal hle hmul hg hpw hhw
  ⟨st', w, hrun, hlook, hdet⟩

theorem C2_withdraw_gross_and_fee_witness :
    ∃ st' w, Sol.withdraw_handler 0 9 51 7 wstSol =
        .ok (st', w, 51 * 98 / 100) ∧
      Sol.lookup_balance st'.payable.balances 7 = some (100 - 51) ∧
      w.details.amount = 51 :=
  @C2_withdraw_gross_and_fee 0 9 51 7 wstSol 100 rfl rfl
    (by decide) (by decide) (by decide) (by decide) (by decide)

/-- C3 (documents the code bug): `check_withdraw_inputs` itself fires in
the claimed order, but `withdraw_handler` drops its `Result` (the call at
withdraw.rs line 92 has no question mark), so a request that fails
validation still commits state: with `amount = 0` the checker reports
`ZeroAmountSpecified`, yet the handler succeeds, bumps both withdrawal
counters and transfers 0.  Additionally, the balances loop of
`check_withdraw_inputs` never runs on an empty balances list, so a token
with no entry passes instead of failing with
`NoBalanceForWithdrawalToken` there. -/
theorem C3_dropped_check_result :
    Sol.check_withdraw_inputs 0 7 pyblSol = .error .ZeroAmountSpecified ∧
    (Sol.withdraw_handler 0 9 0 7 wstSol).toOption.map
        (fun r => (r.1.payable.withdrawals_count,
                   r.1.global_stats.withdrawals_count, r.2.2)) =
      some (1, 1, 0) ∧
    Sol.check_withdraw_inputs 5 7 pyblSolNoBal = .ok () :=
  ⟨rfl, rfl, rfl⟩

/-- C5: every payment attempt against a payable whose `is_closed` flag is
set fails with `PayableIsClosed` (the error return models the CosmWasm
rollback, so counters and balances are untouched), while the Solana
withdrawal path performs no `is_closed` check at all: a withdrawal from a
closed payable with sufficient balance succeeds. -/
theorem C5_closed_payable (now signer amount mint : Nat)
    (env : Cw.PayEnv) (st : Cw.State) (pid token camount : Nat)
    (wst : Sol.WState) (b : Nat) :
    (∀ p, st.payable = some p → p.is_closed = true →
      Cw.pay env st pid token camount = .error .PayableIsClosed) ∧
    (wst.payable.is_closed = true →
      wst.payable.host = signer →
      Sol.lookup_balance wst.payable.balances mint = some b →
      amount ≤ b →
      amount * 98 < U64 →
      wst.global_stats.withdrawals_count + 1 < U64 →
      wst.payable.withdrawals_count + 1 < U64 →
      wst.host.withdrawals_count + 1 < U64 →
      ∃ st' w, Sol.withdraw_handler now signer amount mint wst =
        .ok (st', w, amount * 98 / 100)) := by
  constructor
  · intro p hp hc
    simp [Cw.pay, hp, hc]
  · intro _ hhost hbal hle hmul hg hpw hhw
    obtain ⟨st', w, hrun, _⟩ := withdraw_handler_ok hhost hbal hle hmul hg hpw hhw
    exact ⟨st', w, hrun⟩

theorem C5_closed_payable_witness :
    Cw.pay envW (mkStW (some pyblClosed)) 9 7 50 =
      .error .PayableIsClosed ∧
    ∃ st' w, Sol.withdraw_handler 0 9 50 7 wstSolClosed =
      .ok (st', w, 50 * 98 / 100) :=
  ⟨(C5_closed_payable 0 9 50 7 envW (mkStW (some pyblClosed)) 9 7 50
      wstSolClosed 100).1 pyblClosed rfl rfl,
   (C5_closed_payable 0 9 50 7 envW (mkStW (some pyblClosed)) 9 7 50
      wstSolClosed 100).2 rfl rfl rfl (by decide) (by decide)
      (by decide) (by decide) (by decide)⟩

/-- C8: `withdraw_received_handler` validates, in order: decoded caller
matches the expected value and is non-zero (`InvalidCallerAddress`),
decoded action id is the withdrawal action (`InvalidActionId`), the
requesting identity matches the payable's registered host for the remote
chain — wallet and emitter chain (`UnauthorizedCallerAddress`), the
supplied host-scoped sequence number equals the next expected withdrawal
count `withdrawals_count + 1` (`WrongWithdrawalsHostCountProvided`,
rejecting out-of-order or duplicate requests), the decoded payable id
matches the target payable (`NotMatchingPayableId`), and the decoded
token and amount match the locally supplied mint and amount
(`NotMatchingTransactionToken` / `NotMatchingTransactionAmount`); when
every check passes the validation succeeds. -/
theorem C8_withdraw_received_validation (vaa : Sol.Vaa)
    (caller host_count : Nat) (host : Sol.User) (payable : Sol.Payable)
    (wrapped_mint amount : Nat) :
    (¬ (vaa.data.caller = caller ∧ caller ≠ 0) →
      Sol.withdraw_received_checks vaa caller host_count host payable
        wrapped_mint amount = .error .InvalidCallerAddress) ∧
    ((vaa.data.caller = caller ∧ caller ≠ 0) →
      vaa.data.action_id ≠ Sol.ACTION_ID_WITHDRAW →
      Sol.withdraw_received_checks vaa caller host_count host payable
        wrapped_mint amount = .error .InvalidActionId) ∧
    ((vaa.data.caller = caller ∧ caller ≠ 0) →
      vaa.data.action_id = Sol.ACTION_ID_WITHDRAW →
      ¬ (host.owner_wallet = caller ∧ host.chain_id = vaa.emitter_chain) →
      Sol.withdraw_received_checks vaa caller host_count host payable
        wrapped_mint amount = .error .UnauthorizedCallerAddress) ∧
    ((vaa.data.caller = caller ∧ caller ≠ 0) →
      vaa.data.action_id = Sol.ACTION_ID_WITHDRAW →
      (host.owner_wallet = caller ∧ host.chain_id = vaa.emitter_chain) →
      host_count ≠ host.withdrawals_count + 1 →
      Sol.withdraw_received_checks vaa caller host_count host payable
        wrapped_mint amount = .error .WrongWithdrawalsHostCountProvided) ∧
    ((vaa.data.caller = caller ∧ caller ≠ 0) →
      vaa.data.action_id = Sol.ACTION_ID_WITHDRAW →
      (host.owner_wallet = caller ∧ host.chain_id = vaa.emitter_chain) →
      host_count = host.withdrawals_count + 1 →
      payable.key ≠ vaa.data.payable_id →
      Sol.withdraw_received_checks vaa caller host_count host payable
        wrapped_mint amount = .error .NotMatchingPayableId) ∧
    ((vaa.data.caller = caller ∧ caller ≠ 0) →
      vaa.data.action_id = Sol.ACTION_ID_WITHDRAW →
      (host.owner_wallet = caller ∧ host.chain_id = vaa.emitter_chain) →
      host_count = host.withdrawals_count + 1 →
      payable.key = vaa.data.payable_id →
      vaa.data.token ≠ wrapped_mint →
      Sol.withdraw_received_checks vaa caller host_count host payable
        wrapped_mint amount = .error .NotMatchingTransactionToken) ∧
    ((vaa.data.caller = caller ∧ caller ≠ 0) →
      vaa.data.action_id = Sol.ACTION_ID_WITHDRAW →
      (host.owner_wallet = caller ∧ host.chain_id = vaa.emitter_chain) →
      host_count = host.withdrawals_count + 1 →
      payable.key = vaa.data.payable_id →
      vaa.data.token = wrapped_mint →
      vaa.data.amount ≠ amount →
      Sol.withdraw_received_checks vaa caller host_count host payable
        wrapped_mint amount = .error .NotMatchingTransactionAmount) ∧
    ((vaa.data.caller = caller ∧ caller ≠ 0) →
      vaa.data.action_id = Sol.ACTION_ID_WITHDRAW →
      (host.owner_wallet = caller ∧ host.chain_id = vaa.emitter_chain) →
      host_count = host.withdrawals_count + 1 →
      payable.key = vaa.data.payable_id →
      vaa.data.token = wrapped_mint →
      vaa.data.amount = amount →
      Sol.withdraw_received_checks vaa caller host_count host payable
        wrapped_mint amount = .ok ()) := by
  refine ⟨?_, ?_, ?_, ?_, ?_, ?_, ?_, ?_⟩
  · intro h1
    unfold Sol.withdraw_received_checks
    rw [if_pos h1]
  · intro h1 h2
    unfold Sol.withdraw_received_checks
    rw [if_neg (not_not_intro h1), if_pos h2]
  · intro h1 h2 h3
    unfold Sol.withdraw_received_checks
    rw [if_neg (not_not_intro h1), if_neg (not_not_intro h2), if_pos h3]
  · intro h1 h2 h3 h4
    unfold Sol.withdraw_received_checks
    rw [if_neg (not_not_intro h1), if_neg (not_not_intro h2),
      if_neg (not_not_intro h3), if_pos h4]
  · intro h1 h2 h3 h4 h5
    unfold Sol.withdraw_received_checks
    rw [if_neg (not_not_intro h1), if_neg (not_not_intro h2),
      if_neg (not_not_intro h3), if_neg (not_not_intro h4), if_pos h5]
  · intro h1 h2 h3 h4 h5 h6
    unfold Sol.withdraw_received_checks
    rw [if_neg (not_not_intro h1), if_neg (not_not_intro h2),
      if_neg (not_not_intro h3), if_neg (not_not_intro h4),
      if_neg (not_not_intro h5), if_pos h6]
  · intro h1 h2 h3 h4 h5 h6 h7
    unfold Sol.withdraw_received_checks
    rw [if_neg (not_not_intro h1), if_neg (not_not_intro h2),
      if_neg (not_not_intro h3), if_neg (not_not_intro h4),
      if_neg (not_not_intro h5), if_neg (not_not_intro h6), if_pos h7]
  · intro h1 h2 h3 h4 h5 h6 h7
    unfold Sol.withdraw_received_checks
    rw [if_neg (not_not_intro h1), if_neg (not_not_intro h2),
      if_neg (not_not_intro h3), if_neg (not_not_intro h4),
      if_neg (not_not_intro h5), if_neg (not_not_intro h6),
      if_neg (not_not_intro h7)]

theorem C8_withdraw_received_validation_witness :
    Sol.withdraw_received_checks vaaW 0 1 userSol pyblSol 7 51 =
      .error .InvalidCallerAddress ∧
    Sol.withdraw_received_checks vaaW 9 1 userSol pyblSol 7 51 = .ok () :=
  ⟨(C8_withdraw_received_validation vaaW 0 1 userSol pyblSol 7 51).1
      (by decide),
   (C8_withdraw_received_validation vaaW 9 1 userSol pyblSol 7 51
      ).2.2.2.2.2.2.2 (by decide) (by decide) (by decide) (by decide)
      (by decide) (by decide) (by decide)⟩

theorem check_amounts_positive_zero {taas : List Sol.TokenAndAmount}
    (h : ∃ taa ∈ taas, taa.amount = 0) :
    SolV1.check_amounts_positive taas = .error .ZeroAmountSpecified := by
  induction taas with
  | nil => simp at h
  | cons taa rest ih =>
    by_cases h0 : taa.amount = 0
    · simp [SolV1.check_amounts_positive, h0]
    · rcases h with ⟨x, hx, hx0⟩
      rcases List.mem_cons.mp hx with h1 | h2
      · subst h1
        exact absurd hx0 h0
      · simp [SolV1.check_amounts_positive, Nat.pos_of_ne_zero h0,
          ih ⟨x, h2, hx0⟩]

theorem check_taas_with_details_zero :
    ∀ (taas : List Sol.TokenAndAmount) (det : List Sol.TokenDetails),
      taas.length = det.length →
      (∀ x ∈ taas.zip det, x.1.token = x.2.mint ∧ x.2.is_supported = true) →
      (∃ taa ∈ taas, taa.amount = 0) →
      Sol.check_taas_with_details (taas.zip det) =
        .error .ZeroAmountSpecified := by
  intro taas
  induction taas with
  | nil => intro det _ _ hex; simp at hex
  | cons taa rest ih =>
    intro det hlen hall hex
    cases det with
    | nil => simp at hlen
    | cons td dr =>
      obtain ⟨hm, hs⟩ := hall (taa, td) (by simp [List.zip_cons_cons])
      simp only at hm hs
      simp only [List.zip_cons_cons]
      by_cases h0 : taa.amount = 0
      · simp [Sol.check_taas_with_details, hm, hs, h0]
      · rcases hex with ⟨x, hx, hx0⟩
        rcases List.mem_cons.mp hx with h1 | h2
        · subst h1
          exact absurd hx0 h0
        · have hrest := ih dr (by simpa using hlen)
            (fun x hx => hall x (by simp [List.zip_cons_cons, hx]))
            ⟨x, h2, hx0⟩
          simp [Sol.check_taas_with_details, hm, hs,
            Nat.pos_of_ne_zero h0, hrest]

/-- C9: payable creation rejects any specified `(token, amount)` pair with
a zero amount (`ZeroAmountSpecified`), rejects a pair list longer than the
configured maximum (`MaxPayableTokensCapacityReached`, a check of the
`initialize_payable` generation of the handler), accepts an empty pair
list (any token, any positive amount — unconditional in the
`create_payable` generation), and on success initializes the new payable
with `payments_count = 0`, `withdrawals_count = 0`, `is_closed = false`
and empty balances. -/
theorem C9_create_payable (now payable_key signer host_key : Nat)
    (description : List Char) (taas : List Sol.TokenAndAmount)
    (free : Bool)
    (det : List Sol.TokenDetails) (gs : Sol.GlobalStats)
    (cs : Sol.ChainStats) (host : Sol.User) :
    ((SolV1.trimChars description).length ≠ 0 →
      SolV1.utf8Len description ≤ SolV1.MAX_PAYABLES_DESCRIPTION_LENGTH →
      taas.length ≤ SolV1.MAX_PAYABLES_TOKENS →
      ((free = true ∧ taas.length = 0) ∨
        (free = false ∧ taas.length > 0)) →
      (∃ taa ∈ taas, taa.amount = 0) →
      SolV1.initialize_payable_handler now host_key description taas free
        gs host = .error .ZeroAmountSpecified) ∧
    ((SolV1.trimChars description).length ≠ 0 →
      SolV1.utf8Len description ≤ SolV1.MAX_PAYABLES_DESCRIPTION_LENGTH →
      taas.length > SolV1.MAX_PAYABLES_TOKENS →
      SolV1.initialize_payable_handler now host_key description taas free
        gs host = .error .MaxPayableTokensCapacityReached) ∧
    (det.length = taas.length →
      (∀ x ∈ taas.zip det, x.1.token = x.2.mint ∧ x.2.is_supported = true) →
      (∃ taa ∈ taas, taa.amount = 0) →
      Sol.create_payable_handler now payable_key signer taas det cs host =
        .error .ZeroAmountSpecified) ∧
    (cs.payables_count + 1 < U64 → cs.activities_count + 1 < U64 →
      host.payables_count + 1 < U64 → host.activities_count + 1 < U64 →
      ∃ cs' host' p,
        Sol.create_payable_handler now payable_key signer [] [] cs host =
          .ok (cs', host', p, 0) ∧
        p.payments_count = 0 ∧ p.withdrawals_count = 0 ∧
        p.is_closed = false ∧ p.balances = [] ∧
        p.allowed_tokens_and_amounts = []) ∧
    (∀ cs' host' p c,
      Sol.create_payable_handler now payable_key signer taas det cs host =
        .ok (cs', host', p, c) →
      p.payments_count = 0 ∧ p.withdrawals_count = 0 ∧
      p.is_closed = false ∧ p.balances = []) := by
  refine ⟨?_, ?_, ?_, ?_, ?_⟩
  · intro hd1 hd2 hlen hcfg hex
    unfold SolV1.initialize_payable_handler
    rw [if_neg hd1, if_neg (not_not_intro hd2),
      if_neg (not_not_intro hlen), if_neg (not_not_intro hcfg),
      check_amounts_positive_zero hex]
  · intro hd1 hd2 hlen
    unfold SolV1.initialize_payable_handler
    rw [if_neg hd1, if_neg (not_not_intro hd2),
      if_pos (by omega)]
  · intro hlen hall hex
    unfold Sol.create_payable_handler
    rw [if_neg (not_not_intro hlen),
      check_taas_with_details_zero taas det hlen.symm hall hex]
  · intro hc1 hc2 hc3 hc4
    have hrun : Sol.create_payable_handler now payable_key signer [] []
        cs host =
        .ok ({ payables_count := cs.payables_count + 1
               activities_count := cs.activities_count + 1 },
             { host with payables_count := host.payables_count + 1
                         activities_count := host.activities_count + 1 },
             { key := payable_key, host := signer
               chain_count := cs.payables_count + 1
               host_count := host.payables_count + 1
               allowed_tokens_and_amounts := [], balances := []
               created_at := now, payments_count := 0
               withdrawals_count := 0, activities_count := 1
               is_closed := false }, 0) := by
      unfold Sol.create_payable_handler
      simp [Sol.check_taas_with_details, u64_next, checked_add,
        hc1, hc2, hc3, hc4]
    exact ⟨_, _, _, hrun, rfl, rfl, rfl, rfl, rfl⟩
  · intro cs' host' p c h
    unfold Sol.create_payable_handler at h
    split at h
    · exact Except.noConfusion h
    · split at h
      · exact Except.noConfusion h
      · repeat' split at h
        all_goals try exact Except.noConfusion h
        injection h with h
        simp only [Prod.mk.injEq] at h
        obtain ⟨h1, h2, h3, h4⟩ := h
        subst h3
        exact ⟨rfl, rfl, rfl, rfl⟩

theorem C9_create_payable_witness :
    SolV1.initialize_payable_handler 0 9 descW taasZero false gsSol
      userSol = .error .ZeroAmountSpecified ∧
    SolV1.initialize_payable_handler 0 9 descW taasLong false gsSol
      userSol = .error .MaxPayableTokensCapacityReached ∧
    Sol.create_payable_handler 0 1 9 taasZero detZero csSol userSol =
      .error .ZeroAmountSpecified ∧
    ∃ cs' host' p,
      Sol.create_payable_handler 0 1 9 [] [] csSol userSol =
        .ok (cs', host', p, 0) ∧
      p.payments_count = 0 ∧ p.withdrawals_count = 0 ∧
      p.is_closed = false ∧ p.balances = [] ∧
      p.allowed_tokens_and_amounts = [] :=
  ⟨(C9_create_payable 0 1 9 9 descW taasZero false detZero gsSol
      csSol userSol).1 (by decide) (by decide) (by decide)
      (by decide) (by decide),
   (C9_create_payable 0 1 9 9 descW taasLong false detZero gsSol
      csSol userSol).2.1 (by decide) (by decide) (by decide),
   (C9_create_payable 0 1 9 9 descW taasZero false detZero gsSol
      csSol userSol).2.2.1 (by decide) (by decide) (by decide),
   (C9_create_payable 0 1 9 9 descW taasZero false detZero gsSol
      csSol userSol).2.2.2.1 (by decide) (by decide) (by decide)
      (by decide)⟩

theorem wrap_index_pos {count : Nat} (h1 : 1 ≤ count) (h2 : count < U64) :
    (count + (U64 - 1)) % U64 = count - 1 := by
  have hU : 1 ≤ U64 := by decide
  have hstep : count + (U64 - 1) = (count - 1) + U64 := by omega
  rw [hstep, Nat.add_mod_right]
  exact Nat.mod_eq_of_lt (by omega)

theorem wrap_index_zero : (0 + (U64 - 1)) % U64 = U64 - 1 := by
  have hU : 1 ≤ U64 := by decide
  rw [Nat.zero_add]
  exact Nat.mod_eq_of_lt (by omega)

theorem load_and_index_ne {ids : Option (List Nat)} {count : Nat} :
    Cw.load_and_index ids count ≠ .error .InvalidUserPaymentCount ∧
    Cw.load_and_index ids count ≠ .error .InvalidPayablePaymentCount := by
  unfold Cw.load_and_index
  split
  · simp
  · split <;> simp

theorem load_and_index_some {l : List Nat} {count x : Nat}
    (h : l.get? ((count + (U64 - 1)) % U64) = some x) :
    Cw.load_and_index (some l) count = .ok x := by
  rw [List.get?_eq_getElem?] at h
  simp [Cw.load_and_index, h]

theorem load_and_index_oob {l : List Nat} {count : Nat}
    (h : l.length ≤ (count + (U64 - 1)) % U64) :
    Cw.load_and_index (some l) count = .error .panicked := by
  have h' : l.get? ((count + (U64 - 1)) % U64) = none :=
    List.get?_eq_none.mpr h
  rw [List.get?_eq_getElem?] at h'
  simp [Cw.load_and_index, h']

/-- C10: the payment-id lookups validate the requested count only against
its upper bound.  `user_payment_id` fails with `InvalidUserPaymentCount`
exactly when `count` exceeds the wallet's `payments_count` (an absent
`User` record defaults to zero payments, so every positive count is
rejected for it); `payable_payment_id` fails with
`InvalidPayablePaymentCount` exactly when `count` exceeds the payable's
`payments_count`; an in-bounds count returns the id stored at position
`count − 1`; and `count = 0` is *not* rejected by the bound check — it
reaches the `(count - 1) as usize` computation, whose wrapping result
`2 ^ 64 - 1` indexes out of bounds (a panic). -/
theorem C10_payment_id_lookup :
    (∀ (user : Option Cw.User) (ids : Option (List Nat)) (count : Nat),
      Cw.user_payment_id user ids count =
          .error .InvalidUserPaymentCount ↔
        count > (user.getD Cw.User.fresh).payments_count) ∧
    (∀ (ids : Option (List Nat)) (count : Nat), 0 < count →
      Cw.user_payment_id none ids count =
        .error .InvalidUserPaymentCount) ∧
    (∀ (p : Cw.Payable) (ids : Option (List Nat)) (count : Nat),
      Cw.payable_payment_id (some p) ids count =
          .error .InvalidPayablePaymentCount ↔
        count > p.payments_count) ∧
    (∀ (user : Option Cw.User) (l : List Nat) (count x : Nat),
      1 ≤ count → count < U64 →
      count ≤ (user.getD Cw.User.fresh).payments_count →
      l.get? (count - 1) = some x →
      Cw.user_payment_id user (some l) count = .ok x) ∧
    (∀ (p : Cw.Payable) (l : List Nat) (count x : Nat),
      1 ≤ count → count < U64 →
      count ≤ p.payments_count →
      l.get? (count - 1) = some x →
      Cw.payable_payment_id (some p) (some l) count = .ok x) ∧
    (∀ (user : Option Cw.User) (l : List Nat), l.length < U64 →
      Cw.user_payment_id user (some l) 0 = .error .panicked) ∧
    (∀ (p : Cw.Payable) (l : List Nat), l.length < U64 →
      Cw.payable_payment_id (some p) (some l) 0 = .error .panicked) := by
  have hU : 1 ≤ U64 := by decide
  refine ⟨?_, ?_, ?_, ?_, ?_, ?_, ?_⟩
  · intro user ids count
    unfold Cw.user_payment_id
    by_cases h : count > (user.getD Cw.User.fresh).payments_count
    · simp [h]
    · rw [if_neg h]
      exact iff_of_false load_and_index_ne.1 h
  · intro ids count hpos
    unfold Cw.user_payment_id
    rw [if_pos (by simpa [Cw.User.fresh] using hpos)]
  · intro p ids count
    simp only [Cw.payable_payment_id]
    by_cases h : count > p.payments_count
    · simp [h]
    · rw [if_neg h]
      exact iff_of_false load_and_index_ne.2 h
  · intro user l count x h1 h2 h3 hx
    unfold Cw.user_payment_id
    rw [if_neg (by omega)]
    exact load_and_index_some (by rw [wrap_index_pos h1 h2]; exact hx)
  · intro p l count x h1 h2 h3 hx
    simp only [Cw.payable_payment_id]
    rw [if_neg (by omega)]
    exact load_and_index_some (by rw [wrap_index_pos h1 h2]; exact hx)
  · intro user l hlen
    unfold Cw.user_payment_id
    rw [if_neg (by omega)]
    exact load_and_index_oob (by rw [wrap_index_zero]; omega)
  · intro p l hlen
    simp only [Cw.payable_payment_id]
    rw [if_neg (by omega)]
    exact load_and_index_oob (by rw [wrap_index_zero]; omega)

theorem C10_payment_id_lookup_witness :
    Cw.user_payment_id none (some [11, 22]) 1 =
      .error .InvalidUserPaymentCount ∧
    Cw.user_payment_id (some { payments_count := 2 }) (some [11, 22]) 2 =
      .ok 22 ∧
    Cw.payable_payment_id (some pyblC10) (some [11, 22]) 2 = .ok 22 ∧
    Cw.user_payment_id (some { payments_count := 2 }) (some [11, 22]) 0 =
      .error .panicked ∧
    Cw.payable_payment_id (some pyblC10) (some [11, 22]) 0 =
      .error .panicked :=
  ⟨C10_payment_id_lookup.2.1 (some [11, 22]) 1 (by decide),
   C10_payment_id_lookup.2.2.2.1 (some { payments_count := 2 })
     [11, 22] 2 22 (by decide) (by decide) (by decide) (by decide),
   C10_payment_id_lookup.2.2.2.2.1 pyblC10 [11, 22] 2 22
     (by decide) (by decide) (by decide) (by decide),
   C10_payment_id_lookup.2.2.2.2.2.1 (some { payments_count := 2 })
     [11, 22] (by decide),
   C10_payment_id_lookup.2.2.2.2.2.2 pyblC10 [11, 22] (by decide)⟩
